import Mathlib

/-!
# Verification of the Meal-Memory-Tracker image storage pipeline

Shallow embedding of the image-handling code of the repository:

* `server/services/qoi-image.ts` (`QOIImageService.processImageForStorage`,
  `QOIImageService.convertQOIToWebFormat`),
* `server/routes.ts` (`safeDeleteFile`, the `GET /api/images/:id`,
  `POST /api/meals`, `PATCH /api/meals/:id` and `DELETE /api/meals/:id`
  handlers),
* `server/storage.ts` (`updateMeal`, `deleteMeal`, `getMeal`).

Conventions of the embedding:

* TypeScript `Buffer`s and strings that carry binary/base64 payloads are
  modelled as `List Nat` (byte values / UTF-8 code units).
* A call into an external library that can throw is modelled as a function
  returning `Except String α`; the string is the error message.
* JavaScript `undefined`/`null`/value distinctions that matter to the code
  are modelled with `Option` (for locals that are `undefined` or a value)
  and with the three-valued `JsField` type (for keys of the update object
  passed to `storage.updateMeal`, where a key can be absent, `null`, or a
  value).
* JavaScript truthiness is modelled field by field: for strings the empty
  string is falsy, for numbers `0` is falsy, `undefined`/`null` are falsy.
-/

set_option autoImplicit false

namespace MealTracker

/-! ## Base64 (Node `Buffer.toString("base64")` / `Buffer.from(s, "base64")`)

The standard RFC 4648 alphabet with `=` (ASCII 61) padding, operating on
byte lists.  `base64Encode` models `buf.toString("base64")`;
`base64Decode` models `Buffer.from(s, "base64")` on well-formed input. -/

/-- The base64 alphabet as ASCII codes: `A`-`Z`, `a`-`z`, `0`-`9`, `+`, `/`. -/
def b64Chr (n : Nat) : Nat :=
  if n < 26 then 65 + n
  else if n < 52 then 97 + (n - 26)
  else if n < 62 then 48 + (n - 52)
  else if n = 62 then 43
  else 47

/-- Inverse of `b64Chr` on the alphabet; `0` on junk. -/
def b64Val (c : Nat) : Nat :=
  if 65 ≤ c ∧ c ≤ 90 then c - 65
  else if 97 ≤ c ∧ c ≤ 122 then c - 97 + 26
  else if 48 ≤ c ∧ c ≤ 57 then c - 48 + 52
  else if c = 43 then 62
  else if c = 47 then 63
  else 0

theorem b64Val_b64Chr : ∀ n, n < 64 → b64Val (b64Chr n) = n := by decide

theorem b64Chr_ne_pad : ∀ n, n < 64 → b64Chr n ≠ 61 := by decide

/-- Encode a byte list in base64 (with padding), three input bytes per
four output characters. -/
def base64Encode : List Nat → List Nat
  | [] => []
  | [a] => [b64Chr (a / 4), b64Chr (a % 4 * 16), 61, 61]
  | [a, b] => [b64Chr (a / 4), b64Chr (a % 4 * 16 + b / 16), b64Chr (b % 16 * 4), 61]
  | a :: b :: c :: rest =>
      b64Chr (a / 4) :: b64Chr (a % 4 * 16 + b / 16) ::
      b64Chr (b % 16 * 4 + c / 64) :: b64Chr (c % 64) :: base64Encode rest

/-- Decode a padded base64 character list back to bytes. -/
def base64Decode : List Nat → List Nat
  | c1 :: c2 :: c3 :: c4 :: rest =>
      if c3 = 61 then [b64Val c1 * 4 + b64Val c2 / 16]
      else if c4 = 61 then
        [b64Val c1 * 4 + b64Val c2 / 16, b64Val c2 % 16 * 16 + b64Val c3 / 4]
      else
        (b64Val c1 * 4 + b64Val c2 / 16) ::
        (b64Val c2 % 16 * 16 + b64Val c3 / 4) ::
        (b64Val c3 % 4 * 64 + b64Val c4) :: base64Decode rest
  | _ => []

/-- Base64 decoding inverts base64 encoding on byte lists. -/
theorem base64Decode_base64Encode :
    ∀ l : List Nat, (∀ b ∈ l, b < 256) → base64Decode (base64Encode l) = l := by
  intro l
  induction l using base64Encode.induct with
  | case1 =>
    intro _
    rfl
  | case2 a =>
    intro h
    have ha : a < 256 := h a (by simp)
    have e1 : b64Val (b64Chr (a / 4)) = a / 4 := b64Val_b64Chr _ (by omega)
    have e2 : b64Val (b64Chr (a % 4 * 16)) = a % 4 * 16 := b64Val_b64Chr _ (by omega)
    simp [base64Encode, base64Decode, e1, e2]
    omega
  | case3 a b =>
    intro h
    have ha : a < 256 := h a (by simp)
    have hb : b < 256 := h b (by simp)
    have n3 : b64Chr (b % 16 * 4) ≠ 61 := b64Chr_ne_pad _ (by omega)
    have e1 : b64Val (b64Chr (a / 4)) = a / 4 := b64Val_b64Chr _ (by omega)
    have e2 : b64Val (b64Chr (a % 4 * 16 + b / 16)) = a % 4 * 16 + b / 16 :=
      b64Val_b64Chr _ (by omega)
    have e3 : b64Val (b64Chr (b % 16 * 4)) = b % 16 * 4 := b64Val_b64Chr _ (by omega)
    simp [base64Encode, base64Decode, n3, e1, e2, e3]
    omega
  | case4 a b c rest ih =>
    intro h
    have ha : a < 256 := h a (by simp)
    have hb : b < 256 := h b (by simp)
    have hc : c < 256 := h c (by simp)
    have n3 : b64Chr (b % 16 * 4 + c / 64) ≠ 61 := b64Chr_ne_pad _ (by omega)
    have n4 : b64Chr (c % 64) ≠ 61 := b64Chr_ne_pad _ (by omega)
    have e1 : b64Val (b64Chr (a / 4)) = a / 4 := b64Val_b64Chr _ (by omega)
    have e2 : b64Val (b64Chr (a % 4 * 16 + b / 16)) = a % 4 * 16 + b / 16 :=
      b64Val_b64Chr _ (by omega)
    have e3 : b64Val (b64Chr (b % 16 * 4 + c / 64)) = b % 16 * 4 + c / 64 :=
      b64Val_b64Chr _ (by omega)
    have e4 : b64Val (b64Chr (c % 64)) = c % 64 := b64Val_b64Chr _ (by omega)
    have hrest : base64Decode (base64Encode rest) = rest := by
      apply ih
      intro x hx
      exact h x (by simp [hx])
    simp [base64Encode, base64Decode, n3, n4, e1, e2, e3, e4, hrest]
    omega

/-! ## JavaScript truthiness helpers -/

/-- `x || d` for a JS number that may be `undefined`: `undefined`, `null`
and `0` are falsy and select the default. -/
def jsOrNat (o : Option Nat) (d : Nat) : Nat :=
  match o with
  | some (n + 1) => n + 1
  | _ => d

/-- `x || d` for a definitely-present JS number: `0` is falsy. -/
def jsOrNat0 (n d : Nat) : Nat :=
  if n = 0 then d else n

/-- Truthiness filter for a JS number field: `undefined` and `0` become
`none` (falsy). -/
def jsTruthyNat (o : Option Nat) : Option Nat :=
  match o with
  | some (n + 1) => some (n + 1)
  | _ => none

/-- Truthiness filter for a JS string field: `undefined` and the empty
string become `none` (falsy). -/
def jsTruthyStr (o : Option String) : Option String :=
  match o with
  | some s => if s = "" then none else some s
  | none => none

/-! ## Downscaling (`QOIImageService.processImageForStorage`, resize step)

Source (`qoi-image.ts` lines 30-38):
```
const maxDimension = 1920;
let { width, height } = metadata;
if (width > maxDimension || height > maxDimension) {
  const ratio = Math.min(maxDimension / width, maxDimension / height);
  width = Math.round(width * ratio);
  height = Math.round(height * ratio);
}
```
JS numbers are modelled as exact rationals; `Math.round` rounds half
toward positive infinity. -/

/-- `Math.round` on a nonnegative JS number: `floor(q + 1/2)`. -/
def jsRound (q : ℚ) : ℤ :=
  Int.floor (q + 1 / 2)

/-- The downscale step of `processImageForStorage`. -/
def downscaleDims (width height : Nat) : Nat × Nat :=
  if 1920 < width ∨ 1920 < height then
    let r : ℚ := min (1920 / (width : ℚ)) (1920 / (height : ℚ))
    ((jsRound ((width : ℚ) * r)).toNat, (jsRound ((height : ℚ) * r)).toNat)
  else (width, height)

theorem jsRound_toNat_le {q : ℚ} (h : q ≤ 1920) : (jsRound q).toNat ≤ 1920 := by
  have h2 : q + 1 / 2 ≤ (1920 : ℚ) + 1 / 2 := by linarith
  have h3 : Int.floor (q + 1 / 2) ≤ Int.floor ((1920 : ℚ) + 1 / 2) :=
    Int.floor_le_floor h2
  have h4 : Int.floor ((1920 : ℚ) + 1 / 2) = 1920 := by
    rw [Int.floor_eq_iff]
    constructor
    · norm_num
    · norm_num
  unfold jsRound
  omega

theorem mul_minRatio_le {w h : Nat} (hw : 0 < w) :
    (w : ℚ) * min (1920 / (w : ℚ)) (1920 / (h : ℚ)) ≤ 1920 := by
  have hwq : (0 : ℚ) < (w : ℚ) := by exact_mod_cast hw
  have step : (w : ℚ) * min (1920 / (w : ℚ)) (1920 / (h : ℚ)) ≤ (w : ℚ) * (1920 / (w : ℚ)) :=
    mul_le_mul_of_nonneg_left (min_le_left _ _) (le_of_lt hwq)
  have cancel : (w : ℚ) * (1920 / (w : ℚ)) = 1920 := by
    field_simp
  linarith

theorem mul_minRatio_le' {w h : Nat} (hh : 0 < h) :
    (h : ℚ) * min (1920 / (w : ℚ)) (1920 / (h : ℚ)) ≤ 1920 := by
  have hhq : (0 : ℚ) < (h : ℚ) := by exact_mod_cast hh
  have step : (h : ℚ) * min (1920 / (w : ℚ)) (1920 / (h : ℚ)) ≤ (h : ℚ) * (1920 / (h : ℚ)) :=
    mul_le_mul_of_nonneg_left (min_le_right _ _) (le_of_lt hhq)
  have cancel : (h : ℚ) * (1920 / (h : ℚ)) = 1920 := by
    field_simp
  linarith

/-! ## The QOI image service (`server/services/qoi-image.ts`)

The service calls two external libraries: `sharp` (image metadata, resize
to raw RGBA, raw-to-PNG conversion) and `qoijs` (`QOI.encode`,
`QOI.decode`).  Neither library is part of the repository; each call is
modelled as an oracle in `ImageEnv` returning `Except String α`, where
`.error` models a thrown exception.  The logic of the service itself
(dimension check, downscale, base64 wrapping, default dimensions, the
try/catch wrappers) is embedded concretely. -/

/-- Result of `sharp(buf).metadata()`: the `width`/`height` keys may be
absent (`undefined`). -/
structure SharpMeta where
  width : Option Nat
  height : Option Nat
deriving DecidableEq

/-- Result of `QOI.decode`: `data` is `none` when the decoder returned an
object without a usable `data` field (the `!decoded || !decoded.data`
guard in the source). -/
structure QoiDecoded where
  data : Option (List Nat)
  width : Nat
  height : Nat
  channels : Nat
deriving DecidableEq

/-- A raster image produced by `sharp(raw, { raw: { width, height,
channels } }).png()`: PNG bytes together with the pixel dimensions the
PNG declares. -/
structure Raster where
  width : Nat
  height : Nat
  channels : Nat
  bytes : List Nat
deriving DecidableEq

/-- Oracles for the external image libraries (`sharp` and `qoijs`).
`.error` models a thrown exception. -/
structure ImageEnv where
  metadata : List Nat → Except String SharpMeta
  resizeRaw : List Nat → Nat → Nat → Except String (List Nat)
  qoiEncode : List Nat → Nat → Nat → Except String (List Nat)
  qoiDecode : List Nat → Except String QoiDecoded
  rawToPng : List Nat → Nat → Nat → Nat → Except String Raster

/-- Return value of `processImageForStorage`. -/
structure ImageProcessingResult where
  qoiData : List Nat
  width : Nat
  height : Nat
deriving DecidableEq

/-- Body of the `try` block of `QOIImageService.processImageForStorage`
(`qoi-image.ts` lines 21-63): read metadata, reject missing/zero
dimensions, downscale, resize to raw RGBA, QOI-encode, base64-wrap. -/
def processImageAttempt (env : ImageEnv) (imageBuffer : List Nat) :
    Except String ImageProcessingResult :=
  match env.metadata imageBuffer with
  | .error e => .error e
  | .ok md =>
    match jsTruthyNat md.width, jsTruthyNat md.height with
    | some w, some h =>
      match downscaleDims w h with
      | (w2, h2) =>
        match env.resizeRaw imageBuffer w2 h2 with
        | .error e => .error e
        | .ok data =>
          match env.qoiEncode data w2 h2 with
          | .error e => .error e
          | .ok blob => .ok ⟨base64Encode blob, w2, h2⟩
    | _, _ => .error "Could not determine image dimensions"

/-- `QOIImageService.processImageForStorage`: the `catch` block
(`qoi-image.ts` lines 64-67) logs and rethrows every failure as the
single generic error `Failed to process image for storage`. -/
def processImageForStorage (env : ImageEnv) (imageBuffer : List Nat) :
    Except String ImageProcessingResult :=
  match processImageAttempt env imageBuffer with
  | .ok r => .ok r
  | .error _ => .error "Failed to process image for storage"

/-- Body of the `try` block of `QOIImageService.convertQOIToWebFormat`
(`qoi-image.ts` lines 74-100): base64-decode the stored blob, QOI-decode
it, and convert the raw RGBA data to PNG with dimensions
`decoded.width || width`, `decoded.height || height`,
`decoded.channels || 4`. -/
def convertAttempt (env : ImageEnv) (qoiData : List Nat) (width height : Nat) :
    Except String Raster :=
  match env.qoiDecode (base64Decode qoiData) with
  | .error e => .error e
  | .ok decoded =>
    match decoded.data with
    | none => .error "Failed to decode QOI data"
    | some data =>
        env.rawToPng data (jsOrNat0 decoded.width width)
          (jsOrNat0 decoded.height height) (jsOrNat0 decoded.channels 4)

/-- `QOIImageService.convertQOIToWebFormat`: the `catch` block
(`qoi-image.ts` lines 101-104) rethrows every failure as
`Failed to convert image for display`. -/
def convertQOIToWebFormat (env : ImageEnv) (qoiData : List Nat) (width height : Nat) :
    Except String Raster :=
  match convertAttempt env qoiData width height with
  | .ok r => .ok r
  | .error _ => .error "Failed to convert image for display"

/-! ## Data model (`shared/schema.ts`, `meals` table) and storage
(`server/storage.ts`)

Nullable columns are `Option`; `text` columns carrying binary payloads
(`imageData`) are `Option (List Nat)`; `photoUrl` is an `Option String`.
The four rating columns are `NOT NULL` integers.  The `peopleNames`
associations live in a separate table and are handled separately by
`updateMeal`; they are not a column of the meal row. -/

structure Meal where
  id : Nat
  restaurantId : Option Nat
  dishId : Option Nat
  photoUrl : Option String
  imageData : Option (List Nat)
  imageWidth : Option Nat
  imageHeight : Option Nat
  price : Option String
  description : Option String
  portionSize : Option String
  tasteRating : Int
  presentationRating : Int
  valueRating : Int
  serviceRating : Int
  isExcellent : Bool
  wantAgain : Bool
deriving DecidableEq

/-- A key of a plain JavaScript object used as a partial update: the key
can be absent, present with value `null`, or present with a value. -/
inductive JsField (α : Type) where
  | absent
  | nullv
  | val (a : α)
deriving DecidableEq

/-- The `updateData` object built by the `PATCH /api/meals/:id` handler
(`routes.ts` lines 355-377) and passed to `storage.updateMeal`.  A key
that was never assigned is `absent` and is not touched by the SQL
`UPDATE ... SET`. -/
structure UpdateData where
  restaurantId : JsField Nat
  dishId : JsField Nat
  photoUrl : JsField String
  imageData : JsField (List Nat)
  imageWidth : JsField Nat
  imageHeight : JsField Nat
  price : JsField String
  description : JsField String
  portionSize : JsField String
  tasteRating : JsField Int
  presentationRating : JsField Int
  valueRating : JsField Int
  serviceRating : JsField Int
  isExcellent : JsField Bool
  wantAgain : JsField Bool
  peopleNames : JsField (List String)
deriving DecidableEq

/-- `if (x !== undefined) updateData.k = x` applied to an
`Option`-valued local: `undefined` leaves the key absent. -/
def ofOpt {α : Type} (o : Option α) : JsField α :=
  match o with
  | none => JsField.absent
  | some a => JsField.val a

/-- Effect of one key of a drizzle `update(...).set(obj)` on a nullable
column: an absent key leaves the column unchanged, `null` clears it, a
value replaces it. -/
def applyField {α : Type} (cur : Option α) (f : JsField α) : Option α :=
  match f with
  | JsField.absent => cur
  | JsField.nullv => none
  | JsField.val a => some a

/-- Same for a `NOT NULL` column.  The handler never assigns `null` to
one of these keys, so the `nullv` branch is unreachable from the routes;
it is mapped to the current value to keep the function total. -/
def applyFieldN {α : Type} (cur : α) (f : JsField α) : α :=
  match f with
  | JsField.absent => cur
  | JsField.nullv => cur
  | JsField.val a => a

/-- The row-level effect of `storage.updateMeal` on the meal row
(`storage.ts` lines 297-303: `db.update(meals).set(mealData)`); keys
absent from `updateData` leave their columns unchanged. -/
def applyUpdateMeal (m : Meal) (u : UpdateData) : Meal :=
  ⟨m.id,
    applyField m.restaurantId u.restaurantId,
    applyField m.dishId u.dishId,
    applyField m.photoUrl u.photoUrl,
    applyField m.imageData u.imageData,
    applyField m.imageWidth u.imageWidth,
    applyField m.imageHeight u.imageHeight,
    applyField m.price u.price,
    applyField m.description u.description,
    applyField m.portionSize u.portionSize,
    applyFieldN m.tasteRating u.tasteRating,
    applyFieldN m.presentationRating u.presentationRating,
    applyFieldN m.valueRating u.valueRating,
    applyFieldN m.serviceRating u.serviceRating,
    applyFieldN m.isExcellent u.isExcellent,
    applyFieldN m.wantAgain u.wantAgain⟩

/-- `storage.getMeal`: look the meal up by id. -/
def getMealDb (db : List Meal) (id : Nat) : Option Meal :=
  db.find? (fun m => m.id = id)

/-- `storage.updateMeal` restricted to the meal row (the `peopleNames`
associations are stored in the separate `meal_people` table). -/
def updateMealDb (db : List Meal) (id : Nat) (u : UpdateData) : List Meal :=
  db.map (fun m => if m.id = id then applyUpdateMeal m u else m)

/-- `storage.deleteMeal`: remove the meal row (the associated
`meal_people` rows are removed first in the source; that table is not
modelled). -/
def deleteMealDb (db : List Meal) (id : Nat) : List Meal :=
  db.filter (fun m => m.id ≠ id)

/-! ## File system and `safeDeleteFile` (`routes.ts` lines 13-36) -/

/-- The server file system: the set of existing paths, plus an oracle
saying whether `fs.promises.unlink` throws on a given existing path (for
example on a permission error). -/
structure Fs where
  files : List String
  unlinkThrows : String → Bool

/-- `safeDeleteFile`: returns whether a file was deleted, together with
the resulting file system.  All exceptions are caught inside (the
function itself never throws): an empty path returns `false`, a missing
file returns `false`, an `unlink` failure is caught and returns `false`. -/
def safeDeleteFile (fs : Fs) (filePath : String) : Bool × Fs :=
  if filePath = "" then (false, fs)
  else
    let actualPath := if filePath.startsWith "/uploads/" then filePath.drop 1 else filePath
    if fs.files.contains actualPath then
      if fs.unlinkThrows actualPath then (false, fs)
      else (true, ⟨fs.files.erase actualPath, fs.unlinkThrows⟩)
    else (false, fs)

/-! ## `GET /api/images/:id` (`routes.ts` lines 58-93) -/

/-- Terminal states of the image read handler. -/
inductive ImageRes where
  | ok200 (png : Raster)
  | notFound404
  | err500
deriving DecidableEq

/-- The `GET /api/images/:id` handler.  `!meal || !meal.imageData` sends
404 (`undefined`, `null` and the empty string are all falsy).  Otherwise
the handler tries `convertQOIToWebFormat` with stored dimensions
defaulted through `meal.imageWidth || 800` and `meal.imageHeight || 600`.
If that throws, the `catch` block at lines 76-81 runs
`pngBuffer = await sharp(imageBuffer).png().toBuffer()`; the identifier
`sharp` is not bound anywhere in the `routes.ts` module scope (the only
binding is a `const sharp = require(..)` local to the `catch` block of
the `POST /api/meals` handler), so evaluating it raises a
`ReferenceError`, which escapes to the outer `catch` at lines 89-92 and
produces a 500 response.  The base64 fallback branch therefore always
ends in `err500`. -/
def getImageRoute (env : ImageEnv) (db : List Meal) (id : Nat) : ImageRes :=
  match getMealDb db id with
  | none => ImageRes.notFound404
  | some meal =>
    match meal.imageData with
    | none => ImageRes.notFound404
    | some data =>
      if data = [] then ImageRes.notFound404
      else
        match convertQOIToWebFormat env data (jsOrNat meal.imageWidth 800)
            (jsOrNat meal.imageHeight 600) with
        | .ok png => ImageRes.ok200 png
        | .error _ => ImageRes.err500

/-! ## `POST /api/meals` image processing (`routes.ts` lines 144-189) -/

/-- The image fields of the `mealData` object the POST handler builds. -/
structure ImageFields where
  imageData : Option (List Nat)
  imageWidth : Option Nat
  imageHeight : Option Nat
deriving DecidableEq

/-- The photo processing block of the `POST /api/meals` handler for an
uploaded file (`routes.ts` lines 149-189).

* `aiOk` is whether `aiService.analyzeMealPhoto` succeeds; if it throws
  the outer `catch` at line 180 swallows the error and the meal is
  created without an image.
* On `processImageForStorage` success the QOI result is used.
* On failure the handler falls back (lines 166-176): it first assigns
  `imageData` the base64 of the original bytes (lines 170-171) and only
  then awaits `sharp(imageBuffer).metadata()` (line 172), taking the
  dimensions with `|| 800` and `|| 600` defaults.  If that metadata call
  throws, the outer `catch` at line 180 swallows the error, but
  `imageData` has already been assigned: the meal is persisted with the
  base64 payload and `undefined` dimensions.

The block never throws: every failure path is caught and the handler
continues to create the meal. -/
def postImageFields (env : ImageEnv) (aiOk : Bool) (buf : List Nat) : ImageFields :=
  if aiOk then
    match processImageForStorage env buf with
    | .ok r => ⟨some r.qoiData, some r.width, some r.height⟩
    | .error _ =>
      match env.metadata buf with
      | .ok md => ⟨some (base64Encode buf), some (jsOrNat md.width 800),
          some (jsOrNat md.height 600)⟩
      | .error _ => ⟨some (base64Encode buf), none, none⟩
  else ⟨none, none, none⟩

/-- Install image fields into a meal row (the image slots of the
`mealData` literal at `routes.ts` lines 233-250). -/
def setImageFields (m : Meal) (f : ImageFields) : Meal :=
  ⟨m.id, m.restaurantId, m.dishId, m.photoUrl,
    f.imageData, f.imageWidth, f.imageHeight,
    m.price, m.description, m.portionSize,
    m.tasteRating, m.presentationRating, m.valueRating, m.serviceRating,
    m.isExcellent, m.wantAgain⟩

/-- The `POST /api/meals` handler, restricted to the image pipeline:
`base` carries the validated non-image form fields (their parsing and
zod validation are independent of the image pipeline and are elided).
The handler processes the optional upload, inserts the meal via
`storage.createMeal` and responds 201. -/
def postMealsRoute (env : ImageEnv) (db : List Meal) (base : Meal)
    (file : Option (List Nat)) (aiOk : Bool) : Nat × List Meal :=
  let fields : ImageFields :=
    match file with
    | some buf => postImageFields env aiOk buf
    | none => ⟨none, none, none⟩
  (201, db ++ [setImageFields base fields])

/-! ## `PATCH /api/meals/:id` (`routes.ts` lines 265-387) -/

/-- The multipart body of a PATCH request; every field is a string or
absent. -/
structure PatchBody where
  deleteImage : Option String
  restaurantName : Option String
  dishName : Option String
  price : Option String
  description : Option String
  portionSize : Option String
  tasteRating : Option String
  presentationRating : Option String
  valueRating : Option String
  serviceRating : Option String
  isExcellent : Option String
  wantAgain : Option String
  peopleNames : Option String
deriving DecidableEq

/-- Oracles for the form-data helpers the PATCH handler calls:
`parseFloat(s).toString()` composed (the stored `price` column is the
string rendering of the parsed float), `parseInt`, `JSON.parse` of the
people list (which can throw), and the restaurant/dish lookup-or-create
steps which resolve a name to a row id. -/
structure ParseEnv where
  parseFloatToString : String → String
  parseIntS : String → Int
  parseJsonNames : String → Except String (List String)
  resolveRestaurant : String → Nat
  resolveDish : String → Nat

/-- `formData.peopleNames` (`routes.ts` line 332):
`req.body.peopleNames ? JSON.parse(req.body.peopleNames) : undefined`;
a `JSON.parse` exception propagates to the outer catch. -/
def peopleField (p : ParseEnv) (body : PatchBody) : Except String (Option (List String)) :=
  match jsTruthyStr body.peopleNames with
  | some s =>
    match p.parseJsonNames s with
    | .ok l => .ok (some l)
    | .error e => .error e
  | none => .ok none

/-- Builds the `updateData` object of the PATCH handler (`routes.ts`
lines 272-377), or the thrown error:

1. a new uploaded file is processed with `processImageForStorage`; on
   failure the error is rethrown (`throw processingError`, line 302) —
   there is no base64 fallback in this handler;
2. `deleteImage === "true"` with no file sets the four image keys to
   `null`;
3. the remaining form fields are copied into `updateData` only when
   supplied (per-field truthiness as in the source);
4. file-system side effects (temp-file cleanup, `safeDeleteFile` of a
   previous `photoUrl` artifact) do not affect `updateData` and are
   modelled separately. -/
def patchBuildUpdate (env : ImageEnv) (p : ParseEnv) (file : Option (List Nat))
    (body : PatchBody) : Except String UpdateData :=
  let step1 : Except String (Option ImageProcessingResult) :=
    match file with
    | some buf =>
      match processImageForStorage env buf with
      | .ok r => .ok (some r)
      | .error e => .error e
    | none => .ok none
  match step1 with
  | .error e => .error e
  | .ok imgResult =>
    let del : Bool := (body.deleteImage = some "true" : Bool) && (file = none : Bool)
    match peopleField p body with
    | .error e => .error e
    | .ok pf =>
      .ok ⟨
        ofOpt ((jsTruthyStr body.restaurantName).map p.resolveRestaurant),
        ofOpt ((jsTruthyStr body.dishName).map p.resolveDish),
        (if del then JsField.nullv else JsField.absent),
        (if del then JsField.nullv else
          match imgResult with
          | some r => JsField.val r.qoiData
          | none => JsField.absent),
        (if del then JsField.nullv else
          match imgResult with
          | some r => JsField.val r.width
          | none => JsField.absent),
        (if del then JsField.nullv else
          match imgResult with
          | some r => JsField.val r.height
          | none => JsField.absent),
        ofOpt ((jsTruthyStr body.price).map p.parseFloatToString),
        ofOpt body.description,
        ofOpt body.portionSize,
        ofOpt ((jsTruthyStr body.tasteRating).map p.parseIntS),
        ofOpt ((jsTruthyStr body.presentationRating).map p.parseIntS),
        ofOpt ((jsTruthyStr body.valueRating).map p.parseIntS),
        ofOpt ((jsTruthyStr body.serviceRating).map p.parseIntS),
        ofOpt (body.isExcellent.map (fun s => s = "true")),
        ofOpt (body.wantAgain.map (fun s => s = "true")),
        ofOpt pf⟩

/-- The `PATCH /api/meals/:id` handler: on any thrown error the outer
`catch` (lines 381-386) responds 400 and `storage.updateMeal` is never
reached; otherwise the update is applied and the handler responds 200. -/
def patchMealsRoute (env : ImageEnv) (p : ParseEnv) (db : List Meal) (id : Nat)
    (file : Option (List Nat)) (body : PatchBody) : Nat × List Meal :=
  match patchBuildUpdate env p file body with
  | .error _ => (400, db)
  | .ok u => (200, updateMealDb db id u)

/-! ## `DELETE /api/meals/:id` (`routes.ts` lines 390-410) -/

/-- The `DELETE /api/meals/:id` handler: read the meal, delete the row,
then attempt `safeDeleteFile` on `meal?.photoUrl` when that is truthy,
and respond 204. -/
def deleteMealsRoute (db : List Meal) (fs : Fs) (id : Nat) :
    Nat × List Meal × Fs :=
  let meal := getMealDb db id
  let db2 := deleteMealDb db id
  match meal with
  | some m =>
    match m.photoUrl with
    | some url =>
      if url = "" then (204, db2, fs)
      else (204, db2, (safeDeleteFile fs url).2)
    | none => (204, db2, fs)
  | none => (204, db2, fs)

/-! ## Helper lemmas -/

theorem jsTruthyNat_pos {n : Nat} (h : 0 < n) : jsTruthyNat (some n) = some n := by
  cases n
  · omega
  · rfl

/-! ## Concrete fixtures used by witnesses and counterexamples -/

/-- A raw 2-by-1 RGBA pixel buffer. -/
def rawPixels : List Nat := [10, 20, 30, 255, 50, 60, 70, 255]

/-- An environment in which every external call succeeds: any buffer has
metadata 2 by 1, resizing yields `rawPixels`, QOI encoding yields the
blob `[200, 201]`, QOI decoding succeeds exactly on that blob, and
raw-to-PNG returns a raster with the requested dimensions. -/
def envOk : ImageEnv :=
  ⟨fun _ => .ok ⟨some 2, some 1⟩,
   fun _ _ _ => .ok rawPixels,
   fun _ _ _ => .ok [200, 201],
   fun b => if b = [200, 201] then .ok ⟨some rawPixels, 2, 1, 4⟩
            else .error "QOI decode failed",
   fun d w h c => .ok ⟨w, h, c, d⟩⟩

/-- An environment in which metadata succeeds but the QOI encoder
throws. -/
def envEncodeFails : ImageEnv :=
  ⟨fun _ => .ok ⟨some 2, some 1⟩,
   fun _ _ _ => .ok rawPixels,
   fun _ _ _ => .error "QOI encoder rejected the buffer",
   fun _ => .error "QOI decode failed",
   fun d w h c => .ok ⟨w, h, c, d⟩⟩

/-- An environment in which metadata resolves but carries no
dimensions. -/
def envNoDims : ImageEnv :=
  ⟨fun _ => .ok ⟨none, none⟩,
   fun _ _ _ => .ok rawPixels,
   fun _ _ _ => .ok [200, 201],
   fun _ => .error "QOI decode failed",
   fun d w h c => .ok ⟨w, h, c, d⟩⟩

/-- A concrete parse environment for witnesses. -/
def pEnv : ParseEnv :=
  ⟨fun s => s, fun _ => 1, fun _ => .ok [], fun _ => 7, fun _ => 8⟩

/-- A meal row with no image payload. -/
def meal0 : Meal :=
  ⟨1, none, none, none, none, none, none, none, none, none, 0, 0, 0, 0, false, false⟩

/-- Original uploaded bytes (a PNG-like prefix). -/
def origBytes : List Nat := [137, 80, 78, 71]

/-- A meal stored through the base64 fallback write path: `imageData`
holds the original bytes base64-encoded, which the QOI decoder
rejects. -/
def mealB64 : Meal :=
  ⟨1, none, none, none, some (base64Encode origBytes), some 2, some 1,
   none, none, none, 0, 0, 0, 0, false, false⟩

/-- A meal whose `imageData` is the empty string (as after clearing). -/
def mealEmptyImg : Meal :=
  ⟨2, none, none, none, some [], none, none, none, none, none, 0, 0, 0, 0, false, false⟩

/-- A meal with a stored QOI payload. -/
def mealWithImage : Meal :=
  ⟨1, none, none, none, some [200, 201], some 2, some 1, none, none, none,
   0, 0, 0, 0, false, false⟩

/-- A meal with only a legacy `photoUrl` file artifact. -/
def mealPhoto : Meal :=
  ⟨3, none, none, some "/uploads/abc.jpg", none, none, none, none, none, none,
   0, 0, 0, 0, false, false⟩

/-- A PATCH body supplying no fields at all. -/
def emptyBody : PatchBody :=
  ⟨none, none, none, none, none, none, none, none, none, none, none, none, none⟩

/-- A PATCH body supplying some non-image fields but no file and no
delete flag. -/
def body0 : PatchBody :=
  ⟨none, some "Bar", none, some "12.50", some "tasty", none, some "3",
   none, none, none, some "true", none, some "[]"⟩

/-! ## Claim theorems -/

/-- C4: for inputs with either intrinsic dimension exceeding 1920 the
downscale step of `processImageForStorage` scales both dimensions by the
single ratio `min(1920/width, 1920/height)` and rounds, and both results
are at most 1920; inputs with both dimensions at most 1920 are kept
unchanged. -/
theorem C4_downscale_invariant (w h : Nat) (hw : 0 < w) (hh : 0 < h) :
    (1920 < w ∨ 1920 < h →
      downscaleDims w h =
        ((jsRound ((w : ℚ) * min (1920 / (w : ℚ)) (1920 / (h : ℚ)))).toNat,
         (jsRound ((h : ℚ) * min (1920 / (w : ℚ)) (1920 / (h : ℚ)))).toNat) ∧
      (downscaleDims w h).1 ≤ 1920 ∧ (downscaleDims w h).2 ≤ 1920) ∧
    (w ≤ 1920 → h ≤ 1920 → downscaleDims w h = (w, h)) := by
  constructor
  · intro hbig
    have heq : downscaleDims w h =
        ((jsRound ((w : ℚ) * min (1920 / (w : ℚ)) (1920 / (h : ℚ)))).toNat,
         (jsRound ((h : ℚ) * min (1920 / (w : ℚ)) (1920 / (h : ℚ)))).toNat) := by
      unfold downscaleDims
      rw [if_pos hbig]
    refine ⟨heq, ?_, ?_⟩
    · rw [heq]
      exact jsRound_toNat_le (mul_minRatio_le hw)
    · rw [heq]
      exact jsRound_toNat_le (mul_minRatio_le' hh)
  · intro h1 h2
    unfold downscaleDims
    rw [if_neg]
    omega

/-- Witness for C4 at the concrete input 3000 by 2000: the ratio is
`min(1920/3000, 1920/2000) = 0.64`, so the stored dimensions are
1920 by 1280 and both bounds hold. -/
theorem C4_witness :
    downscaleDims 3000 2000 = (1920, 1280) ∧
    (downscaleDims 3000 2000).1 ≤ 1920 ∧ (downscaleDims 3000 2000).2 ≤ 1920 := by
  have h := (C4_downscale_invariant 3000 2000 (by norm_num) (by norm_num)).1
    (by norm_num)
  refine ⟨?_, h.2.1, h.2.2⟩
  rw [h.1]
  norm_num [jsRound, min_def]
  omega

/-- C1: when the QOI processing step of `POST /api/meals` throws and the
fallback metadata inspection of the original bytes resolves, the handler
does not surface an encoding error: it responds 201 and the persisted
meal row carries the original uploaded bytes base64-encoded with no
pixel-level transform, with `imageWidth`/`imageHeight` taken from the
original bytes and defaulted to 800 by 600 when the metadata carries no
usable dimensions. -/
theorem C1_post_encode_failure_falls_back_to_base64
    (env : ImageEnv) (buf : List Nat) (e : String) (md : SharpMeta)
    (hfail : processImageForStorage env buf = .error e)
    (hmd : env.metadata buf = .ok md)
    (db : List Meal) (base : Meal) :
    postImageFields env true buf =
      ⟨some (base64Encode buf), some (jsOrNat md.width 800), some (jsOrNat md.height 600)⟩ ∧
    postMealsRoute env db base (some buf) true =
      (201, db ++ [setImageFields base
        ⟨some (base64Encode buf), some (jsOrNat md.width 800), some (jsOrNat md.height 600)⟩]) ∧
    (setImageFields base
        ⟨some (base64Encode buf), some (jsOrNat md.width 800), some (jsOrNat md.height 600)⟩).imageData =
      some (base64Encode buf) := by
  have h1 : postImageFields env true buf =
      ⟨some (base64Encode buf), some (jsOrNat md.width 800), some (jsOrNat md.height 600)⟩ := by
    simp [postImageFields, hfail, hmd]
  refine ⟨h1, ?_, rfl⟩
  simp [postMealsRoute, h1]

/-- Witness for C1: a concrete environment whose QOI encoder throws; the
meal is created (201) and stores the base64 of the original bytes with
the intrinsic dimensions 2 by 1. -/
theorem C1_witness :
    postMealsRoute envEncodeFails [] meal0 (some [1, 2, 3]) true =
      (201, [setImageFields meal0 ⟨some (base64Encode [1, 2, 3]), some 2, some 1⟩]) := by
  have h := C1_post_encode_failure_falls_back_to_base64 envEncodeFails [1, 2, 3]
    "Failed to process image for storage" ⟨some 2, some 1⟩ rfl rfl [] meal0
  simpa [jsOrNat] using h.2.1

/-- C7 (amended): the dimension check inside `processImageForStorage`
raises the distinct internal error `Could not determine image
dimensions`, but the catch-all at the end of the method rethrows every
failure as the uniform `Failed to process image for storage`, so the
caller cannot distinguish an unknown-dimensions failure from any other
encode failure. -/
theorem C7_unknown_dims_not_distinguishable
    (env : ImageEnv) (buf : List Nat) (md : SharpMeta)
    (hmd : env.metadata buf = .ok md)
    (hdim : jsTruthyNat md.width = none ∨ jsTruthyNat md.height = none) :
    processImageAttempt env buf = .error "Could not determine image dimensions" ∧
    processImageForStorage env buf = .error "Failed to process image for storage" ∧
    ∀ (env2 : ImageEnv) (buf2 : List Nat) (e : String),
      processImageAttempt env2 buf2 = .error e →
      processImageForStorage env2 buf2 = .error "Failed to process image for storage" := by
  have h1 : processImageAttempt env buf = .error "Could not determine image dimensions" := by
    rcases hdim with hw | hh
    · cases hh2 : jsTruthyNat md.height <;> simp [processImageAttempt, hmd, hw, hh2]
    · cases hw2 : jsTruthyNat md.width <;> simp [processImageAttempt, hmd, hh, hw2]
  refine ⟨h1, by simp [processImageForStorage, h1], ?_⟩
  intro env2 buf2 e h
  simp [processImageForStorage, h]

/-- Witness for C7 (amended) at a concrete environment whose metadata
carries no dimensions. -/
theorem C7_witness :
    processImageAttempt envNoDims [5] = .error "Could not determine image dimensions" ∧
    processImageForStorage envNoDims [5] = .error "Failed to process image for storage" := by
  have h := C7_unknown_dims_not_distinguishable envNoDims [5] ⟨none, none⟩ rfl (Or.inl rfl)
  exact ⟨h.1, h.2.1⟩

/-- C7 (counterexample to the claim as stated): an unknown-dimensions
failure and a QOI-encoder failure produce the very same caller-visible
error value, so the two cases are not distinguishable by the caller of
`processImageForStorage`. -/
theorem C7_same_error_for_both_failures :
    processImageForStorage envNoDims [5] = .error "Failed to process image for storage" ∧
    processImageForStorage envEncodeFails [5] = .error "Failed to process image for storage" := by
  constructor
  · rfl
  · rfl

/-- C2: round-trip on the compact path.  Under the boundary contracts of
the external libraries (the QOI decoder inverts the QOI encoder and
reports the encoded dimensions in its header; `sharp` produces a PNG
with the declared raw dimensions; all calls succeed on the valid input),
`processImageForStorage` stores the base64 of the QOI blob together with
the (possibly downscaled) dimensions, and `convertQOIToWebFormat`
applied to that stored payload with the stored dimensions succeeds and
yields a raster whose pixel dimensions equal the encode-time
dimensions. -/
theorem C2_compact_roundtrip
    (env : ImageEnv) (buf raw blob : List Nat) (w h w2 h2 : Nat) (png : Raster)
    (hmd : env.metadata buf = .ok ⟨some w, some h⟩)
    (hw : 0 < w) (hh : 0 < h)
    (hdown : downscaleDims w h = (w2, h2))
    (hresize : env.resizeRaw buf w2 h2 = .ok raw)
    (hencode : env.qoiEncode raw w2 h2 = .ok blob)
    (hbytes : ∀ b ∈ blob, b < 256)
    (hdecode : env.qoiDecode blob = .ok ⟨some raw, w2, h2, 4⟩)
    (hpng : env.rawToPng raw w2 h2 4 = .ok png)
    (hsharp : png.width = w2 ∧ png.height = h2) :
    processImageForStorage env buf = .ok ⟨base64Encode blob, w2, h2⟩ ∧
    convertQOIToWebFormat env (base64Encode blob) w2 h2 = .ok png ∧
    png.width = w2 ∧ png.height = h2 := by
  have hattempt : processImageAttempt env buf = .ok ⟨base64Encode blob, w2, h2⟩ := by
    simp [processImageAttempt, hmd, jsTruthyNat_pos hw, jsTruthyNat_pos hh, hdown,
      hresize, hencode]
  have hstore : processImageForStorage env buf = .ok ⟨base64Encode blob, w2, h2⟩ := by
    simp [processImageForStorage, hattempt]
  have hb64 : base64Decode (base64Encode blob) = blob :=
    base64Decode_base64Encode blob hbytes
  have hconv : convertAttempt env (base64Encode blob) w2 h2 = .ok png := by
    simp [convertAttempt, hb64, hdecode, jsOrNat0, hpng]
  exact ⟨hstore, by simp [convertQOIToWebFormat, hconv], hsharp.1, hsharp.2⟩

/-- Witness for C2 with the concrete all-succeeding environment: a 2 by
1 image is stored as the base64 of the QOI blob `[200, 201]` and reads
back as a PNG raster with dimensions 2 by 1. -/
theorem C2_witness :
    processImageForStorage envOk [1] = .ok ⟨base64Encode [200, 201], 2, 1⟩ ∧
    convertQOIToWebFormat envOk (base64Encode [200, 201]) 2 1 =
      .ok ⟨2, 1, 4, rawPixels⟩ := by
  have h := C2_compact_roundtrip envOk [1] rawPixels [200, 201] 2 1 2 1
    ⟨2, 1, 4, rawPixels⟩ rfl (by decide) (by decide) (by decide)
    rfl rfl (by decide) rfl rfl ⟨rfl, rfl⟩
  exact ⟨h.1, h.2.1⟩

/-- C3 (code evaluated at the failing input): a meal stored through the
base64 fallback write path, read back through `GET /api/images/:id`.
The QOI decode of the stored blob throws, and the base64 fallback branch
of the handler evaluates `sharp(imageBuffer)` with `sharp` unbound in
the module, so the read responds 500 — not 200 with PNG bytes as the
claim states. -/
theorem C3_fallback_read_returns_500 :
    getImageRoute envOk [mealB64] 1 = ImageRes.err500 := by
  rfl

/-- C5: the `GET /api/images/:id` status discipline.  A missing meal or
missing/empty payload responds 404 for every decoder behaviour; a
present payload whose compact-codec decode fails responds 500 (the
base64 fallback branch always fails as well, since `sharp` is unbound in
the routes module); so a payload-missing case is never answered 500 and
a double-decode-failure case is never answered 404. -/
theorem C5_404_vs_500 :
    (∀ (env : ImageEnv) (db : List Meal) (id : Nat),
      getMealDb db id = none → getImageRoute env db id = ImageRes.notFound404) ∧
    (∀ (env : ImageEnv) (db : List Meal) (id : Nat) (m : Meal),
      getMealDb db id = some m → (m.imageData = none ∨ m.imageData = some []) →
      getImageRoute env db id = ImageRes.notFound404) ∧
    (∀ (env : ImageEnv) (db : List Meal) (id : Nat) (m : Meal) (data : List Nat),
      getMealDb db id = some m → m.imageData = some data → data ≠ [] →
      (∃ e, convertQOIToWebFormat env data (jsOrNat m.imageWidth 800)
        (jsOrNat m.imageHeight 600) = .error e) →
      getImageRoute env db id = ImageRes.err500) := by
  refine ⟨?_, ?_, ?_⟩
  · intro env db id hm
    simp [getImageRoute, hm]
  · intro env db id m hm hd
    rcases hd with hd | hd <;> simp [getImageRoute, hm, hd]
  · intro env db id m data hm hd hne hfail
    rcases hfail with ⟨e, he⟩
    simp [getImageRoute, hm, hd, hne, he]

/-- Witness for C5: the three branches at concrete inputs — empty
database gives 404, an empty payload gives 404, a payload rejected by
both decode paths gives 500. -/
theorem C5_witness :
    getImageRoute envOk [] 1 = ImageRes.notFound404 ∧
    getImageRoute envOk [mealEmptyImg] 2 = ImageRes.notFound404 ∧
    getImageRoute envOk [mealPhoto, mealB64] 1 = ImageRes.err500 := by
  refine ⟨C5_404_vs_500.1 envOk [] 1 rfl, ?_, ?_⟩
  · exact C5_404_vs_500.2.1 envOk [mealEmptyImg] 2 mealEmptyImg rfl (Or.inr rfl)
  · exact C5_404_vs_500.2.2 envOk [mealPhoto, mealB64] 1 mealB64
      (base64Encode origBytes) rfl rfl (by decide)
      ⟨"Failed to convert image for display", by rfl⟩

/-- C10: a meal whose `imageData` is the empty string is answered 404
exactly like an absent payload, for every decoder behaviour — the empty
payload never reaches the decoder and never yields 500. -/
theorem C10_empty_payload_is_404
    (env : ImageEnv) (db : List Meal) (id : Nat) (m : Meal)
    (hm : getMealDb db id = some m) (hd : m.imageData = some []) :
    getImageRoute env db id = ImageRes.notFound404 ∧
    getImageRoute env db id ≠ ImageRes.err500 := by
  have h : getImageRoute env db id = ImageRes.notFound404 := by
    simp [getImageRoute, hm, hd]
  exact ⟨h, by simp [h]⟩

/-- Witness for C10 at a concrete meal with an empty `imageData`
string. -/
theorem C10_witness :
    getImageRoute envEncodeFails [mealEmptyImg] 2 = ImageRes.notFound404 := by
  exact (C10_empty_payload_is_404 envEncodeFails [mealEmptyImg] 2 mealEmptyImg rfl rfl).1

/-- C6 (counterexample to the claim as stated): a PATCH supplying a new
file whose QOI processing throws does not fall back to base64 storage —
the handler responds 400 and the meal keeps its prior payload. -/
theorem C6_counterexample :
    patchMealsRoute envEncodeFails pEnv [mealWithImage] 1 (some [1, 2, 3]) emptyBody =
      (400, [mealWithImage]) ∧
    mealWithImage.imageData = some [200, 201] := by
  constructor
  · rfl
  · rfl

/-- C6 (amended): in `PATCH /api/meals/:id` a QOI encoding failure for a
newly uploaded file is rethrown (`throw processingError`), the request
fails with 400, and the stored meals are left unchanged — there is no
base64 fallback in the update handler, unlike meal creation. -/
theorem C6_patch_encode_failure_propagates
    (env : ImageEnv) (p : ParseEnv) (db : List Meal) (id : Nat)
    (buf : List Nat) (body : PatchBody) (e : String)
    (hfail : processImageForStorage env buf = .error e) :
    patchBuildUpdate env p (some buf) body = .error e ∧
    patchMealsRoute env p db id (some buf) body = (400, db) := by
  have h1 : patchBuildUpdate env p (some buf) body = .error e := by
    simp [patchBuildUpdate, hfail]
  exact ⟨h1, by simp [patchMealsRoute, h1]⟩

/-- Witness for C6 (amended) at a concrete failing encoder. -/
theorem C6_witness :
    patchMealsRoute envEncodeFails pEnv [mealWithImage, mealPhoto] 1
      (some [9, 9]) body0 = (400, [mealWithImage, mealPhoto]) := by
  exact (C6_patch_encode_failure_propagates envEncodeFails pEnv
    [mealWithImage, mealPhoto] 1 [9, 9] body0
    "Failed to process image for storage" rfl).2

/-- C8: deleting a meal whose image file-system artifact is already
absent — `safeDeleteFile` does not raise (it returns `false` and leaves
the file system unchanged), the meal row is still deleted, and the
handler responds 204. -/
theorem C8_delete_with_absent_artifact
    (db : List Meal) (fs : Fs) (id : Nat) (m : Meal) (url : String)
    (hm : getMealDb db id = some m) (hurl : m.photoUrl = some url) (hne : url ≠ "")
    (habsent : (if url.startsWith "/uploads/" then url.drop 1 else url) ∉ fs.files) :
    safeDeleteFile fs url = (false, fs) ∧
    deleteMealsRoute db fs id = (204, deleteMealDb db id, fs) ∧
    getMealDb (deleteMealDb db id) id = none := by
  have h1 : safeDeleteFile fs url = (false, fs) := by
    simp [safeDeleteFile, hne, habsent]
  refine ⟨h1, ?_, ?_⟩
  · simp [deleteMealsRoute, hm, hurl, hne, h1]
  · simp [getMealDb, deleteMealDb, List.find?_eq_none]

/-- Witness for C8: the meal references `/uploads/abc.jpg`, the file
system holds no files, and the delete still succeeds with 204. -/
theorem C8_witness :
    safeDeleteFile ⟨[], fun _ => false⟩ "/uploads/abc.jpg" =
      (false, ⟨[], fun _ => false⟩) ∧
    deleteMealsRoute [mealPhoto] ⟨[], fun _ => false⟩ 3 =
      (204, [], ⟨[], fun _ => false⟩) := by
  have h := C8_delete_with_absent_artifact [mealPhoto] ⟨[], fun _ => false⟩ 3
    mealPhoto "/uploads/abc.jpg" rfl rfl (by decide) (by simp)
  refine ⟨h.1, ?_⟩
  have h2 := h.2.1
  simpa [deleteMealDb, mealPhoto] using h2

/-- C9: a PATCH with no new file and no `deleteImage` flag builds an
update object whose image keys (`photoUrl`, `imageData`, `imageWidth`,
`imageHeight`) are all absent and whose remaining keys are present
exactly when the corresponding form field was supplied (per-field
truthiness as in the source); applying such an update through
`storage.updateMeal` leaves the image columns of the row unchanged. -/
theorem C9_patch_without_photo_preserves_image_fields
    (env : ImageEnv) (p : ParseEnv) (body : PatchBody)
    (hdel : body.deleteImage ≠ some "true")
    (pf : Option (List String)) (hp : peopleField p body = .ok pf) :
    patchBuildUpdate env p none body = .ok ⟨
      ofOpt ((jsTruthyStr body.restaurantName).map p.resolveRestaurant),
      ofOpt ((jsTruthyStr body.dishName).map p.resolveDish),
      JsField.absent, JsField.absent, JsField.absent, JsField.absent,
      ofOpt ((jsTruthyStr body.price).map p.parseFloatToString),
      ofOpt body.description,
      ofOpt body.portionSize,
      ofOpt ((jsTruthyStr body.tasteRating).map p.parseIntS),
      ofOpt ((jsTruthyStr body.presentationRating).map p.parseIntS),
      ofOpt ((jsTruthyStr body.valueRating).map p.parseIntS),
      ofOpt ((jsTruthyStr body.serviceRating).map p.parseIntS),
      ofOpt (body.isExcellent.map (fun s => s = "true")),
      ofOpt (body.wantAgain.map (fun s => s = "true")),
      ofOpt pf⟩ ∧
    (∀ (m : Meal) (u : UpdateData), patchBuildUpdate env p none body = .ok u →
      (applyUpdateMeal m u).imageData = m.imageData ∧
      (applyUpdateMeal m u).imageWidth = m.imageWidth ∧
      (applyUpdateMeal m u).imageHeight = m.imageHeight ∧
      (applyUpdateMeal m u).photoUrl = m.photoUrl) := by
  have hdelb : (body.deleteImage = some "true" : Bool) = false := by
    simp [hdel]
  have h1 : patchBuildUpdate env p none body = .ok ⟨
      ofOpt ((jsTruthyStr body.restaurantName).map p.resolveRestaurant),
      ofOpt ((jsTruthyStr body.dishName).map p.resolveDish),
      JsField.absent, JsField.absent, JsField.absent, JsField.absent,
      ofOpt ((jsTruthyStr body.price).map p.parseFloatToString),
      ofOpt body.description,
      ofOpt body.portionSize,
      ofOpt ((jsTruthyStr body.tasteRating).map p.parseIntS),
      ofOpt ((jsTruthyStr body.presentationRating).map p.parseIntS),
      ofOpt ((jsTruthyStr body.valueRating).map p.parseIntS),
      ofOpt ((jsTruthyStr body.serviceRating).map p.parseIntS),
      ofOpt (body.isExcellent.map (fun s => s = "true")),
      ofOpt (body.wantAgain.map (fun s => s = "true")),
      ofOpt pf⟩ := by
    simp [patchBuildUpdate, hp, hdelb]
  refine ⟨h1, ?_⟩
  intro m u hu
  rw [h1] at hu
  cases hu
  simp [applyUpdateMeal, applyField]

/-- The update object built from `body0` under `pEnv`. -/
def u0 : UpdateData :=
  ⟨JsField.val 7, JsField.absent,
   JsField.absent, JsField.absent, JsField.absent, JsField.absent,
   JsField.val "12.50", JsField.val "tasty", JsField.absent,
   JsField.val 1, JsField.absent, JsField.absent, JsField.absent,
   JsField.val true, JsField.absent, JsField.val []⟩

/-- Witness for C9: the concrete body `body0` (restaurant name, price,
description, taste rating, excellence flag and people names supplied; no
file, no delete flag) yields exactly `u0`, whose image keys are absent,
and applying it to a meal with a stored image leaves the image columns
unchanged. -/
theorem C9_witness :
    patchBuildUpdate envOk pEnv none body0 = .ok u0 ∧
    (applyUpdateMeal mealB64 u0).imageData = mealB64.imageData ∧
    (applyUpdateMeal mealB64 u0).imageWidth = mealB64.imageWidth ∧
    (applyUpdateMeal mealB64 u0).imageHeight = mealB64.imageHeight ∧
    (applyUpdateMeal mealB64 u0).photoUrl = mealB64.photoUrl := by
  have h := C9_patch_without_photo_preserves_image_fields envOk pEnv body0
    (by decide) (some []) rfl
  have h1 : patchBuildUpdate envOk pEnv none body0 = .ok u0 :=
    h.1.trans (congrArg Except.ok (by decide))
  exact ⟨h1, h.2 mealB64 u0 h1⟩

end MealTracker
